import Mathlib

/-!
# Verification of the multilingual tokenizer and n-gram pipeline

Shallow embedding of the tokenizer service
(`services/tokenizer/core/types.py`, `services/tokenizer/core/base.py`,
`services/tokenizer/basic/patterns.py`, `services/tokenizer/basic/tokenizer.py`)
and of the n-gram analyzers
(`analyzers/ngrams/ngrams_base/main.py`, `analyzers/ngrams/ngrams_stats/main.py`).

Text is modelled as `List Char` (Lean `Char` is a Unicode scalar value, matching
Python's `str` code points).  Regular expressions from `patterns.py` are embedded
as an abstract syntax tree `Re` together with a backtracking matcher that follows
Python's `re` semantics for these patterns: alternation is ordered (leftmost
alternative first), quantifiers are greedy with backtracking, `findall` scans
left to right and restarts one character later on failure.

The Python attribute access `config.extract_cashtags` in
`TokenizerPatterns.get_comprehensive_pattern` (patterns.py line 208) is modelled
as the `AttributeError` that pydantic v2 raises there, because the
`TokenizerConfig` model in `core/types.py` defines no `extract_cashtags` field.
Fallible steps therefore live in `Except PyErr`.
-/

set_option maxRecDepth 8000
set_option maxHeartbeats 4000000

namespace MangoTango

/-- Python exceptions that the embedded code can raise. -/
inductive PyErr where
  | attributeError (attr : String) : PyErr
  deriving DecidableEq, Repr

/-! ## Character predicates

All predicates are stated on `Char.toNat` so that they mirror the code-point
ranges written in the Python source.  `isPySpace` models Python's notion of
whitespace (`str.strip`, `str.split`, regex `\s`/`\S`); `isPyWordChar` models
regex `\w` and `isPyAlpha` models `str.isalpha`, both restricted to the script
repertoire the source code handles (ASCII, Latin-1/Latin Extended, the CJK,
Hangul, Kana, Arabic, Thai and Southeast-Asian ranges listed in patterns.py);
code points outside that repertoire do not occur in this development. -/

/-- Unicode whitespace as recognized by Python `str.strip`/`str.split`/regex `\s`. -/
def isPySpace (c : Char) : Bool :=
  let n := c.toNat
  (9 ≤ n && n ≤ 13) || n == 32 || (28 ≤ n && n ≤ 31) || n == 0x85 || n == 0xA0 ||
  n == 0x1680 || (0x2000 ≤ n && n ≤ 0x200A) || n == 0x2028 || n == 0x2029 ||
  n == 0x202F || n == 0x205F || n == 0x3000

/-- ASCII letter. -/
def isAsciiAlpha (c : Char) : Bool :=
  let n := c.toNat
  (65 ≤ n && n ≤ 90) || (97 ≤ n && n ≤ 122)

/-- ASCII decimal digit (Python regex `\d` for the inputs of this development). -/
def isAsciiDigit (c : Char) : Bool :=
  let n := c.toNat
  48 ≤ n && n ≤ 57

/-- Letters of the scripts handled by the source (`str.isalpha` restricted to
that repertoire): ASCII, Latin-1/Extended (excluding × U+00D7 and ÷ U+00F7),
Hangul, CJK (incl. Extension A), Kana, Arabic, Thai, Lao, Khmer, Myanmar,
Buginese, Balinese. -/
def isPyAlpha (c : Char) : Bool :=
  let n := c.toNat
  isAsciiAlpha c ||
  (0xC0 ≤ n && n ≤ 0x24F && n != 0xD7 && n != 0xF7) ||
  (0xAC00 ≤ n && n ≤ 0xD7AF) ||
  (0x4E00 ≤ n && n ≤ 0x9FFF) || (0x3400 ≤ n && n ≤ 0x4DBF) ||
  (0x3040 ≤ n && n ≤ 0x309F) || (0x30A0 ≤ n && n ≤ 0x30FF) ||
  (0x600 ≤ n && n ≤ 0x6FF) || (0x750 ≤ n && n ≤ 0x77F) ||
  (0x8A0 ≤ n && n ≤ 0x8FF) ||
  (0xE00 ≤ n && n ≤ 0xE7F) || (0xE80 ≤ n && n ≤ 0xEFF) ||
  (0x1000 ≤ n && n ≤ 0x109F) || (0x1780 ≤ n && n ≤ 0x17FF) ||
  (0x1A00 ≤ n && n ≤ 0x1A1F) || (0x1B00 ≤ n && n ≤ 0x1B7F)

/-- Python regex `\w`: letters, decimal digits or underscore. -/
def isPyWordChar (c : Char) : Bool :=
  isPyAlpha c || isAsciiDigit c || c.toNat == 95

/-- ASCII lower-casing; Python `str.lower` restricted to the repertoire used
here (the non-ASCII scripts involved are caseless). -/
def pyLower (c : Char) : Char :=
  let n := c.toNat
  if 65 ≤ n && n ≤ 90 then Char.ofNat (n + 32) else c

/-- ASCII upper-casing, see `pyLower`. -/
def pyUpper (c : Char) : Char :=
  let n := c.toNat
  if 97 ≤ n && n ≤ 122 then Char.ofNat (n - 32) else c

/-- `str.strip()`: drop leading and trailing Python whitespace. -/
def pyStrip (s : List Char) : List Char :=
  ((s.dropWhile isPySpace).reverse.dropWhile isPySpace).reverse

/-- Helper for `pySplit`: accumulates the current word (reversed). -/
def pySplitAux : List Char → List Char → List (List Char)
  | [], cur => if cur.isEmpty then [] else [cur.reverse]
  | c :: rest, cur =>
    if isPySpace c then
      if cur.isEmpty then pySplitAux rest [] else cur.reverse :: pySplitAux rest []
    else pySplitAux rest (c :: cur)

/-- `str.split()`: split on whitespace runs, discarding empty pieces. -/
def pySplit (s : List Char) : List (List Char) := pySplitAux s []

/-- `" ".join(text.split())`: collapse whitespace runs to single spaces. -/
def joinWithSpaces (s : List Char) : List Char :=
  match pySplit s with
  | [] => []
  | w :: ws => w ++ (ws.map (fun x => ' ' :: x)).flatten

/-! ## Regex engine

A small backtracking matcher sufficient for the patterns in `patterns.py`.
`mtch` returns the list of possible outcomes `(last consumed char, remaining
input)` in the priority order Python's `re`/`regex` engines explore them:
the first element is the match Python reports.  The previous character is
threaded through for the word-boundary assertion `\b`.  `star`/`opt` are
greedy (longer match first).  The fuel argument only bounds the number of
`star` iterations; it is always called with more fuel than the input length,
and every starred sub-pattern of patterns.py consumes at least one character
per iteration, so the bound is never reached. -/

/-- Regex abstract syntax (the fragment used by patterns.py). -/
inductive Re where
  /-- single-character class -/
  | cls (p : Char → Bool) : Re
  /-- concatenation -/
  | seq (a b : Re) : Re
  /-- ordered alternation (leftmost alternative preferred) -/
  | alt (a b : Re) : Re
  /-- greedy `*` -/
  | star (a : Re) : Re
  /-- greedy `?` -/
  | opt (a : Re) : Re
  /-- negative lookahead `(?!a)` -/
  | nla (a : Re) : Re
  /-- word boundary `\b` -/
  | wb : Re

namespace Re

/-- `a+` as `a a*` (greedy). -/
def plus (a : Re) : Re := .seq a (.star a)

/-- A literal character, case-insensitively (all patterns are compiled with
`re.IGNORECASE`). -/
def ciChar (a : Char) : Re := .cls (fun c => pyLower c == pyLower a)

/-- A literal string, case-insensitively. -/
def ciLit (s : List Char) : Re :=
  match s with
  | [] => .nla (.cls (fun _ => false))
  | [c] => ciChar c
  | c :: rest => .seq (ciChar c) (ciLit rest)

/-- Is there a word boundary between `prev` and the next character? -/
def atWordBoundary (prev : Option Char) (s : List Char) : Bool :=
  let w1 := match prev with | none => false | some c => isPyWordChar c
  let w2 := match s with | [] => false | c :: _ => isPyWordChar c
  w1 != w2

/-- Greedy iteration of a sub-matcher for `star`: try one more iteration
first (longer match preferred), fall back to stopping here.  `fuel` bounds
the number of iterations; it exceeds the input length at every use site and
every starred sub-pattern consumes at least one character per iteration. -/
def starIter (f : Option Char → List Char → List (Option Char × List Char)) :
    Nat → Option Char → List Char → List (Option Char × List Char)
  | 0, prev, s => [(prev, s)]
  | fuel + 1, prev, s =>
    ((f prev s).flatMap (fun pr => starIter f fuel pr.1 pr.2)) ++ [(prev, s)]

/-- Backtracking matcher; see the section comment. -/
def mtch (fuel : Nat) : Re → Option Char → List Char → List (Option Char × List Char)
  | .cls p, _, s =>
    (match s with
     | [] => []
     | c :: rest => if p c then [(some c, rest)] else [])
  | .seq a b, prev, s =>
    (mtch fuel a prev s).flatMap (fun pr => mtch fuel b pr.1 pr.2)
  | .alt a b, prev, s => mtch fuel a prev s ++ mtch fuel b prev s
  | .opt a, prev, s => mtch fuel a prev s ++ [(prev, s)]
  | .nla a, prev, s => if (mtch fuel a prev s).isEmpty then [(prev, s)] else []
  | .wb, prev, s => if atWordBoundary prev s then [(prev, s)] else []
  | .star a, prev, s => starIter (mtch fuel a) fuel prev s

/-- The match Python reports at this position: the number of characters
consumed by the first successful backtracking path, if any. -/
def firstMatchLen (re : Re) (prev : Option Char) (s : List Char) : Option Nat :=
  match mtch (s.length + 2) re prev s with
  | [] => none
  | (_, rest) :: _ => some (s.length - rest.length)

/-- `pattern.findall(text)`: left-to-right scan collecting non-overlapping
matches; on failure (or on the empty match, which the patterns of this
development never produce) the scan advances one character. -/
def findallAux (re : Re) : Nat → Option Char → List Char → List (List Char)
  | 0, _, _ => []
  | _ + 1, _, [] => []
  | fuel + 1, prev, c :: rest =>
    match firstMatchLen re prev (c :: rest) with
    | some (n + 1) =>
      let tok := (c :: rest).take (n + 1)
      tok :: findallAux re fuel (tok.getLast?) ((c :: rest).drop (n + 1))
    | _ => findallAux re fuel (some c) rest

/-- `pattern.findall(text)`. -/
def findall (re : Re) (s : List Char) : List (List Char) :=
  findallAux re (s.length + 1) none s

/-- `pattern.sub(" ", text)`: replace every match with a single space. -/
def subSpaceAux (re : Re) : Nat → Option Char → List Char → List Char
  | 0, _, s => s
  | _ + 1, _, [] => []
  | fuel + 1, prev, c :: rest =>
    match firstMatchLen re prev (c :: rest) with
    | some (n + 1) =>
      let tok := (c :: rest).take (n + 1)
      ' ' :: subSpaceAux re fuel (tok.getLast?) ((c :: rest).drop (n + 1))
    | _ => c :: subSpaceAux re fuel (some c) rest

/-- `pattern.sub(" ", text)`. -/
def subSpace (re : Re) (s : List Char) : List Char :=
  subSpaceAux re (s.length + 1) none s

end Re

/-! ## Pattern constants (patterns.py)

Each definition transcribes one regex constant of
`services/tokenizer/basic/patterns.py`; all are compiled with
`re.IGNORECASE`, which is reflected by `ciChar`/`ciStr` on literals and by
using the full letter class wherever the source writes a one-case class. -/

/-- `ciLit` on a string literal. -/
def ciStr (s : String) : Re := Re.ciLit s.toList

/-- Class `[a-zA-Z]`. -/
def alphaCls : Re := .cls isAsciiAlpha

/-- Class `[a-zA-Z0-9]`. -/
def alnumCls : Re := .cls (fun c => isAsciiAlpha c || isAsciiDigit c)

/-- Class `[a-zA-Z0-9-]`. -/
def alnumDashCls : Re :=
  .cls (fun c => isAsciiAlpha c || isAsciiDigit c || c == '-')

/-- Class `\S` (anything but whitespace). -/
def nonSpaceCls : Re := .cls (fun c => !isPySpace c)

/-- Class `\d`. -/
def digitCls : Re := .cls isAsciiDigit

/-- Class `\w`. -/
def wordCls : Re := .cls isPyWordChar

/-- A domain label `[a-zA-Z0-9](?:[a-zA-Z0-9-]*[a-zA-Z0-9])?`. -/
def domainLabel : Re :=
  .seq alnumCls (.opt (.seq (.star alnumDashCls) alnumCls))

/-- `URL_PATTERN` (patterns.py lines 25-31):
`https?://\S+ | www\.\S+ |`
`[a-zA-Z0-9](?:[a-zA-Z0-9-]*[a-zA-Z0-9])?(?:\.[a-zA-Z0-9](?:[a-zA-Z0-9-]*[a-zA-Z0-9])?)*\.[a-zA-Z]{2,}(?:/\S*)?`. -/
def urlRe : Re :=
  .alt
    (.seq (ciStr "http") (.seq (.opt (Re.ciChar 's'))
      (.seq (ciStr "://") (Re.plus nonSpaceCls))))
    (.alt
      (.seq (ciStr "www.") (Re.plus nonSpaceCls))
      (.seq domainLabel
        (.seq (.star (.seq (Re.ciChar '.') domainLabel))
          (.seq (Re.ciChar '.')
            (.seq (.seq alphaCls (Re.plus alphaCls))
              (.opt (.seq (Re.ciChar '/') (.star nonSpaceCls))))))))

/-- Class `[A-Za-z0-9._%+-]` (email local part). -/
def emailLocalCls : Re :=
  .cls (fun c => isAsciiAlpha c || isAsciiDigit c ||
    c == '.' || c.toNat == 95 || c == '%' || c == '+' || c == '-')

/-- Class `[A-Za-z0-9.-]` (email domain). -/
def emailDomainCls : Re :=
  .cls (fun c => isAsciiAlpha c || isAsciiDigit c || c == '.' || c == '-')

/-- Class `[A-Z|a-z]` (email TLD; the source class literally contains `|`). -/
def emailTldCls : Re := .cls (fun c => isAsciiAlpha c || c == '|')

/-- `EMAIL_PATTERN` (patterns.py line 34):
`\b[A-Za-z0-9._%+-]+@[A-Za-z0-9.-]+\.[A-Z|a-z]{2,}\b`. -/
def emailRe : Re :=
  .seq .wb (.seq (Re.plus emailLocalCls)
    (.seq (Re.ciChar '@') (.seq (Re.plus emailDomainCls)
      (.seq (Re.ciChar '.')
        (.seq (.seq emailTldCls (Re.plus emailTldCls)) .wb)))))

/-- `MENTION_PATTERN` (patterns.py line 37): `@[\w]+`. -/
def mentionRe : Re := .seq (Re.ciChar '@') (Re.plus wordCls)

/-- `HASHTAG_PATTERN` (patterns.py line 38): `#[\w]+`. -/
def hashtagRe : Re := .seq (Re.ciChar '#') (Re.plus wordCls)

/-- Class `[$€£¥₹₽¥¢]` (currency prefixes; `¥` appears twice in the source). -/
def currencyCls : Re :=
  .cls (fun c => c.toNat == 0x24 || c.toNat == 0x20AC || c.toNat == 0xA3 ||
    c.toNat == 0xA5 || c.toNat == 0x20B9 || c.toNat == 0x20BD || c.toNat == 0xA2)

/-- Class `[.,]` (numeric group separators). -/
def sepCls : Re := .cls (fun c => c == '.' || c == ',')

/-- `NUMERIC_PATTERN` (patterns.py lines 41-48):
`\d+(?:st|nd|rd|th)(?!\w) | [$€£¥₹₽¥¢]\d+(?:[.,]\d+)* |`
`\d+(?:[.,]\d+)+ | \d+\.?\d*%?`. -/
def numericRe : Re :=
  .alt
    (.seq (Re.plus digitCls)
      (.seq (.alt (ciStr "st") (.alt (ciStr "nd") (.alt (ciStr "rd") (ciStr "th"))))
        (.nla wordCls)))
    (.alt
      (.seq currencyCls (.seq (Re.plus digitCls)
        (.star (.seq sepCls (Re.plus digitCls)))))
      (.alt
        (.seq (Re.plus digitCls) (Re.plus (.seq sepCls (Re.plus digitCls))))
        (.seq (Re.plus digitCls)
          (.seq (.opt (Re.ciChar '.')) (.seq (.star digitCls) (.opt (Re.ciChar '%')))))))

/-- `CASHTAG_PATTERN` (patterns.py line 51): `\$[A-Z]{1,5}\b`; under
`re.IGNORECASE` the class `[A-Z]` matches either case. -/
def cashtagRe : Re :=
  .seq (Re.ciChar '$')
    (.seq (.seq alphaCls (.opt (.seq alphaCls (.opt (.seq alphaCls
      (.opt (.seq alphaCls (.opt alphaCls)))))))) .wb)

/-- `EMOJI_PATTERN` code-point test (patterns.py lines 54-64): emoticons,
misc symbols, transport, flags, dingbats, supplemental symbols, misc symbols. -/
def isEmojiPatternChar (c : Char) : Bool :=
  let n := c.toNat
  (0x1F600 ≤ n && n ≤ 0x1F64F) || (0x1F300 ≤ n && n ≤ 0x1F5FF) ||
  (0x1F680 ≤ n && n ≤ 0x1F6FF) || (0x1F1E0 ≤ n && n ≤ 0x1F1FF) ||
  (0x2700 ≤ n && n ≤ 0x27BF) || (0x1F900 ≤ n && n ≤ 0x1F9FF) ||
  (0x2600 ≤ n && n ≤ 0x26FF)

/-- `EMOJI_PATTERN` as a regex (an alternation of single-character classes). -/
def emojiRe : Re := .cls isEmojiPatternChar

/-- `CJK_PATTERN` code-point test (patterns.py lines 67-75): CJK Unified
Ideographs, Extension A, Hiragana, Katakana, Hangul Syllables. -/
def isCjkPatternChar (c : Char) : Bool :=
  let n := c.toNat
  (0x4E00 ≤ n && n ≤ 0x9FFF) || (0x3400 ≤ n && n ≤ 0x4DBF) ||
  (0x3040 ≤ n && n ≤ 0x309F) || (0x30A0 ≤ n && n ≤ 0x30FF) ||
  (0xAC00 ≤ n && n ≤ 0xD7AF)

/-- `ARABIC_PATTERN` code-point test (patterns.py lines 78-84). -/
def isArabicPatternChar (c : Char) : Bool :=
  let n := c.toNat
  (0x600 ≤ n && n ≤ 0x6FF) || (0x750 ≤ n && n ≤ 0x77F) || (0x8A0 ≤ n && n ≤ 0x8FF)

/-- `THAI_PATTERN` code-point test (patterns.py lines 87-91). -/
def isThaiPatternChar (c : Char) : Bool :=
  let n := c.toNat
  0xE00 ≤ n && n ≤ 0xE7F

/-- `SEA_PATTERN` code-point test (patterns.py lines 94-101): Khmer, Myanmar,
Buginese, Balinese. -/
def isSeaPatternChar (c : Char) : Bool :=
  let n := c.toNat
  (0x1780 ≤ n && n ≤ 0x17FF) || (0x1000 ≤ n && n ≤ 0x109F) ||
  (0x1A00 ≤ n && n ≤ 0x1A1F) || (0x1B00 ≤ n && n ≤ 0x1B7F)

/-- Class `[-'’`]` (hyphen, apostrophe, right single quotation mark,
grave accent) used inside `LATIN_WORD_PATTERN`. -/
def apostCls : Re :=
  .cls (fun c => c.toNat == 45 || c.toNat == 39 || c.toNat == 0x2019 || c.toNat == 0x60)

/-- `LATIN_WORD_PATTERN` (patterns.py line 105):
`[a-zA-Z]+(?:\.[a-zA-Z]+)+\.? | [a-zA-Z]+(?:[-'’`][a-zA-Z]+)*[-'’`]?`. -/
def latinWordRe : Re :=
  .alt
    (.seq (Re.plus alphaCls)
      (.seq (Re.plus (.seq (Re.ciChar '.') (Re.plus alphaCls))) (.opt (Re.ciChar '.'))))
    (.seq (Re.plus alphaCls)
      (.seq (.star (.seq apostCls (Re.plus alphaCls))) (.opt apostCls)))

/-- `KOREAN_WORD_PATTERN` (patterns.py line 108): `[가-힯]+`. -/
def koreanWordRe : Re :=
  Re.plus (.cls (fun c => 0xAC00 ≤ c.toNat && c.toNat ≤ 0xD7AF))

/-- `WORD_PATTERN` (patterns.py line 110):
`(?:LATIN|KOREAN|CJK+|ARABIC+|THAI+|SEA+)`. -/
def wordRe : Re :=
  .alt latinWordRe
    (.alt koreanWordRe
      (.alt (Re.plus (.cls isCjkPatternChar))
        (.alt (Re.plus (.cls isArabicPatternChar))
          (.alt (Re.plus (.cls isThaiPatternChar))
            (Re.plus (.cls isSeaPatternChar))))))

/-- `PUNCTUATION_PATTERN` (patterns.py line 113): `[.!?;:,\-\(\)\[\]{}"\']`. -/
def punctuationRe : Re :=
  .cls (fun c =>
    let n := c.toNat
    c == '.' || c == '!' || c == '?' || c == ';' || c == ':' || c == ',' ||
    c == '-' || c == '(' || c == ')' || c == '[' || c == ']' ||
    c == '{' || c == '}' || n == 34 || n == 39)

/-- Ordered alternation of a list of patterns, `(?:p1|p2|...)`; the empty
case never occurs (the word pattern is always present). -/
def alternation : List Re → Re
  | [] => .cls (fun _ => false)
  | [r] => r
  | r :: rest => .alt r (alternation rest)

/-! ## Configuration (core/types.py) -/

/-- `CaseHandling` (core/types.py lines 38-44). -/
inductive CaseHandling where
  | preserve | lowercase | uppercase | normalize
  deriving DecidableEq, Repr

/-- `LanguageFamily` (core/types.py lines 14-21). -/
inductive LanguageFamily where
  | latin | cjk | arabic | mixed | unknown
  deriving DecidableEq, Repr

/-- `TokenizerConfig` (core/types.py lines 47-100), fields and defaults
exactly as in the source.  Note that the model defines *no*
`extract_cashtags` field. -/
structure TokenizerConfig where
  fallback_language_family : LanguageFamily := .mixed
  include_punctuation : Bool := false
  include_numeric : Bool := true
  include_emoji : Bool := false
  case_handling : CaseHandling := .lowercase
  normalize_unicode : Bool := true
  extract_hashtags : Bool := true
  extract_mentions : Bool := true
  include_urls : Bool := true
  include_emails : Bool := true
  min_token_length : Nat := 1
  max_token_length : Option Nat := none
  strip_whitespace : Bool := true
  deriving DecidableEq, Repr

/-- The default configuration `TokenizerConfig()`. -/
def defaultConfig : TokenizerConfig := {}

/-! ## Preprocessing (core/base.py `_preprocess_text`) -/

/-- Models `unicodedata.normalize("NFKC", text)` — a Python standard-library
call, external to the repository.  Every code point appearing in this
development is NFKC-invariant (ASCII, precomposed Hangul syllables, CJK
unified ideographs), so the call is modelled as the identity. -/
def nfkc (s : List Char) : List Char := s

/-- `AbstractTokenizer._preprocess_text` (core/base.py lines 52-86):
optional NFKC normalization, then case handling (the `normalize` mode is a
placeholder that lower-cases, per the source TODO). -/
def preprocessText (cfg : TokenizerConfig) (s : List Char) : List Char :=
  if s.isEmpty then s
  else
    let s := if cfg.normalize_unicode then nfkc s else s
    match cfg.case_handling with
    | .lowercase => s.map pyLower
    | .uppercase => s.map pyUpper
    | .normalize => s.map pyLower
    | .preserve => s

/-! ## Postprocessing (core/base.py `_postprocess_tokens`, `_is_emoji`) -/

/-- Emoji ranges of `AbstractTokenizer._is_emoji` (core/base.py lines
148-157); these differ from `EMOJI_PATTERN` (regional indicators start at
U+1F1E6, and Extended-A U+1FA70-U+1FAFF is included). -/
def isEmojiRangeChar (c : Char) : Bool :=
  let n := c.toNat
  (0x1F600 ≤ n && n ≤ 0x1F64F) || (0x1F300 ≤ n && n ≤ 0x1F5FF) ||
  (0x1F680 ≤ n && n ≤ 0x1F6FF) || (0x1F1E6 ≤ n && n ≤ 0x1F1FF) ||
  (0x2600 ≤ n && n ≤ 0x26FF) || (0x2700 ≤ n && n ≤ 0x27BF) ||
  (0x1F900 ≤ n && n ≤ 0x1F9FF) || (0x1FA70 ≤ n && n ≤ 0x1FAFF)

/-- Emoji modifiers of `_is_emoji` (core/base.py lines 158-160): ZWJ,
variation selectors, skin tones, tag characters. -/
def isEmojiModifier (c : Char) : Bool :=
  let n := c.toNat
  n == 0x200D || n == 0xFE0E || n == 0xFE0F ||
  (0x1F3FB ≤ n && n ≤ 0x1F3FF) || (0xE0020 ≤ n && n ≤ 0xE007F)

/-- `AbstractTokenizer._is_emoji` (core/base.py lines 133-179): a non-empty
token whose every code point is an emoji or a modifier. -/
def isEmojiToken (t : List Char) : Bool :=
  !t.isEmpty && t.all (fun c => isEmojiRangeChar c || isEmojiModifier c)

/-- One iteration of the `_postprocess_tokens` loop (core/base.py lines
104-129): strip, drop empties, drop emoji when disabled, apply the length
bounds. -/
def postProcessOne (cfg : TokenizerConfig) (tok : List Char) : Option (List Char) :=
  let tok := if cfg.strip_whitespace then pyStrip tok else tok
  if tok.isEmpty then none
  else if !cfg.include_emoji && isEmojiToken tok then none
  else if tok.length < cfg.min_token_length then none
  else
    match cfg.max_token_length with
    | some m => if m < tok.length then none else some tok
    | none => some tok

/-- `AbstractTokenizer._postprocess_tokens` (core/base.py lines 88-131). -/
def postprocessTokens (cfg : TokenizerConfig) (toks : List (List Char)) :
    List (List Char) :=
  toks.filterMap (postProcessOne cfg)

/-! ## BasicTokenizer helpers (basic/tokenizer.py) -/

/-- `_CHAR_LEVEL_PATTERN` (tokenizer.py lines 36-45): CJK Unified
Ideographs, Extension A, Hiragana, Katakana, Thai, Lao, Myanmar, Khmer.
Hangul is deliberately *not* in this set. -/
def isCharLevelChar (c : Char) : Bool :=
  let n := c.toNat
  (0x4E00 ≤ n && n ≤ 0x9FFF) || (0x3400 ≤ n && n ≤ 0x4DBF) ||
  (0x3040 ≤ n && n ≤ 0x309F) || (0x30A0 ≤ n && n ≤ 0x30FF) ||
  (0xE00 ≤ n && n ≤ 0xE7F) || (0xE80 ≤ n && n ≤ 0xEFF) ||
  (0x1000 ≤ n && n ≤ 0x109F) || (0x1780 ≤ n && n ≤ 0x17FF)

/-- `_contains_char_level_chars` (tokenizer.py lines 260-262). -/
def containsCharLevel (t : List Char) : Bool := t.any isCharLevelChar

/-- `_is_pure_char_level_token` (tokenizer.py lines 264-266). -/
def isPureCharLevel (t : List Char) : Bool :=
  t.all (fun c => isCharLevelChar c || isPySpace c)

/-- `_is_email_like` (tokenizer.py lines 251-253):
`"@" in token and "." in token and not token.startswith("@")`. -/
def isEmailLike (t : List Char) : Bool :=
  t.contains '@' && t.contains '.' && !(t.head? == some '@')

/-- The abbreviation shape `^[a-z]{1,3}(?:\.[a-z]{1,3})+\.?$` tested with
`re.match` + `$` under `re.IGNORECASE` in `_is_url_like` (tokenizer.py lines
240-245): some backtracking path must consume the whole token. -/
def matchesAbbrev (t : List Char) : Bool :=
  let seg : Re := .seq alphaCls (.opt (.seq alphaCls (.opt alphaCls)))
  let core : Re :=
    .seq seg (.seq (Re.plus (.seq (Re.ciChar '.') seg)) (.opt (Re.ciChar '.')))
  (Re.mtch (t.length + 2) core none t).any (fun pr => pr.2.isEmpty)

/-- Python `needle in haystack` on strings: contiguous substring test. -/
def containsSub (needle : List Char) : List Char → Bool
  | [] => needle.isEmpty
  | c :: rest => (c :: rest).take needle.length == needle || containsSub needle rest

/-- `str.startswith(("http://", "https://", "www."))` or `"://" in token`
(tokenizer.py line 228). -/
def hasUrlMarker (t : List Char) : Bool :=
  t.take 7 == "http://".toList || t.take 8 == "https://".toList ||
  t.take 4 == "www.".toList || containsSub "://".toList t

/-- `_is_url_like` (tokenizer.py lines 221-249). -/
def isUrlLike (t : List Char) : Bool :=
  if isEmailLike t then false
  else if hasUrlMarker t then true
  else if 1 ≤ t.count '.' && t.any isPyAlpha && !(t.contains '@') then
    if matchesAbbrev t then false else true
  else false

/-- `_clean_url_token` (tokenizer.py lines 255-258): strip trailing
characters of the set `.!?;:,)]}"'`. -/
def cleanUrlToken (t : List Char) : List Char :=
  (t.reverse.dropWhile (fun c =>
    let n := c.toNat
    c == '.' || c == '!' || c == '?' || c == ';' || c == ':' || c == ',' ||
    c == ')' || c == ']' || c == '}' || n == 34 || n == 39)).reverse

/-- Does the token start with `@`, `#` or `$` (tokenizer.py line 278)? -/
def startsWithSocial (t : List Char) : Bool :=
  match t.head? with
  | some c => c == '@' || c == '#' || c == '$'
  | none => false

/-- Flushing the accumulated run in `_process_mixed_script_token`
(tokenizer.py lines 298-313): blank runs vanish; character-level runs of
length > 1 become individual characters; everything else is one token. -/
def flushRun (run : List Char) (isCjk : Bool) : List (List Char) :=
  if (pyStrip run).isEmpty then []
  else if isCjk && 1 < run.length then run.map (fun c => [c])
  else [run]

/-- The run-splitting loop of `_process_mixed_script_token` (tokenizer.py
lines 285-315), carrying the current run and its script flag. -/
def splitRunsLoop : List Char → List Char → Bool → List (List Char)
  | [], run, isCjk => flushRun run isCjk
  | c :: rest, run, isCjk =>
    if isCharLevelChar c == isCjk then splitRunsLoop rest (run ++ [c]) isCjk
    else flushRun run isCjk ++ splitRunsLoop rest [c] (isCharLevelChar c)

/-- The full splitting pass of `_process_mixed_script_token` for tokens that
reach the loop. -/
def splitRuns : List Char → List (List Char)
  | [] => []
  | c :: rest => splitRunsLoop rest [c] (isCharLevelChar c)

/-- `_process_mixed_script_token` (tokenizer.py lines 268-315): tokens
without character-level characters pass through; tokens mixing ASCII Latin
letters with character-level characters that are not social-media entities
(`@`/`#`/`$`-initial) are kept intact; all others go through the
run-splitting loop. -/
def processMixedScriptToken (t : List Char) : List (List Char) :=
  if !containsCharLevel t then [t]
  else
    let hasLatin := t.any (fun c => c.toNat ≤ 127 && isAsciiAlpha c)
    let hasCjk := t.any isCharLevelChar
    let isSocialEntity := startsWithSocial t
    if hasLatin && hasCjk && !isSocialEntity then [t]
    else splitRuns t

/-! ## Pattern synthesis (patterns.py `TokenizerPatterns`) -/

/-- The exclusion parts appended by `get_exclusion_pattern` (patterns.py
lines 266-275): URL, email and numeric patterns for the *disabled* types,
in that order. -/
def exclusionParts (cfg : TokenizerConfig) : List Re :=
  (if !cfg.include_urls then [urlRe] else []) ++
  (if !cfg.include_emails then [emailRe] else []) ++
  (if !cfg.include_numeric then [numericRe] else [])

/-- `get_exclusion_pattern` (patterns.py lines 247-299): `none` when no type
is disabled, otherwise the alternation of the disabled types' patterns.
The per-configuration cache (lines 262-264, 298) is referentially
transparent — the cached value is exactly what recompilation would produce —
so it is not modelled; compilation of these well-formed patterns succeeds,
so the `re` fallback at lines 287-295 is not taken. -/
def getExclusionPattern (cfg : TokenizerConfig) : Option Re :=
  match exclusionParts cfg with
  | [] => none
  | parts => some (alternation parts)

/-- `get_comprehensive_pattern` (patterns.py lines 171-245).  After
appending the URL, email, mention and hashtag parts (lines 195-205), line
208 evaluates `config.extract_cashtags`.  `TokenizerConfig`
(core/types.py lines 47-100) defines no `extract_cashtags` field, and a
pydantic v2 model with the default extra-mode raises `AttributeError` for
reads of undeclared attributes, so the call raises for every configuration:
the cashtag/emoji/numeric/word/punctuation parts are never appended, the
compile fallback (lines 228-241) is never reached, and the cache (lines
187-189, 243-244) is never populated — the cache-hit early return can
therefore never fire either. -/
def getComprehensivePattern (cfg : TokenizerConfig) : Except PyErr Re :=
  let _parts : List Re :=
    (if cfg.include_urls then [urlRe] else []) ++
    (if cfg.include_emails then [emailRe] else []) ++
    (if cfg.extract_mentions then [mentionRe] else []) ++
    (if cfg.extract_hashtags then [hashtagRe] else [])
  .error (.attributeError "extract_cashtags")

/-! ## Extraction (tokenizer.py `_extract_tokens_ordered`) -/

/-- The part of `_extract_tokens_ordered` (tokenizer.py lines 162-204) that
runs once a comprehensive pattern is in hand: find-all, the zero-match
fallback to the trimmed whole input, then per-token URL cleanup and
script-level processing, and the final blank filter. -/
def extractCore (comp : Re) (lang : LanguageFamily) (text : List Char) :
    List (List Char) :=
  let rawTokens := Re.findall comp text
  if rawTokens.isEmpty && !(pyStrip text).isEmpty then [pyStrip text]
  else
    let tokens := rawTokens.flatMap (fun token =>
      if (pyStrip token).isEmpty then []
      else
        let token := if isUrlLike token then cleanUrlToken token else token
        if lang == .cjk && containsCharLevel token then
          if isPureCharLevel token then token.map (fun c => [c]) else [token]
        else if lang == .mixed then processMixedScriptToken token
        else [token])
    tokens.filter (fun t => !(pyStrip t).isEmpty)

/-- The exclusion step of `_extract_tokens_ordered` (tokenizer.py lines
150-157): blank out matches of the exclusion pattern, then collapse
whitespace runs. -/
def applyExclusion (cfg : TokenizerConfig) (text : List Char) : List Char :=
  match getExclusionPattern cfg with
  | some ex => joinWithSpaces (Re.subSpace ex text)
  | none => text

/-- `_extract_tokens_ordered` (tokenizer.py lines 130-204).  The blank
checks and the exclusion step execute; the request for the comprehensive
pattern then raises (see `getComprehensivePattern`), so for every input
that is still non-blank after exclusion the result is that error. -/
def extractTokensOrdered (cfg : TokenizerConfig) (lang : LanguageFamily)
    (text : List Char) : Except PyErr (List (List Char)) :=
  if (pyStrip text).isEmpty then .ok []
  else
    let text := applyExclusion cfg text
    if (pyStrip text).isEmpty then .ok []
    else
      match getComprehensivePattern cfg with
      | .error e => .error e
      | .ok comp => .ok (extractCore comp lang text)

/-- `BasicTokenizer.tokenize` (tokenizer.py lines 47-72).  The input is an
`Option` because Python callers can pass `None`; `if not text` treats
`None` and the empty string alike.  `_extract_tokens` (lines 74-85) always
passes `LanguageFamily.MIXED`. -/
def tokenize (cfg : TokenizerConfig) (text : Option (List Char)) :
    Except PyErr (List (List Char)) :=
  match text with
  | none => .ok []
  | some t =>
    if t.isEmpty then .ok []
    else
      let processed := preprocessText cfg t
      if processed.isEmpty then .ok []
      else
        match extractTokensOrdered cfg .mixed processed with
        | .error e => .error e
        | .ok toks => .ok (postprocessTokens cfg toks)

/-- `tokenize` on `String`s, with `tokenize_text`'s always-a-string calling
convention (basic/__init__.py lines 21-24). -/
def tokenizeStr (cfg : TokenizerConfig) (s : String) :
    Except PyErr (List String) :=
  (tokenize cfg (some s.toList)).map (List.map List.asString)

/-! ## The intended pipeline (spec-modelled `extract_cashtags`)

`TokenizerConfigSpec` repairs the single slip above.  Modelled from the
spec: the configuration surface in spec §3/§6 lists
`extract_cashtags: bool` with default false ("false unless explicitly
enabled") — the field `get_comprehensive_pattern` reads at patterns.py line
208 but `core/types.py` does not declare.  Everything else below is
translated from the source exactly as the fallible pipeline above. -/
structure TokenizerConfigSpec extends TokenizerConfig where
  extract_cashtags : Bool := false
  deriving DecidableEq, Repr

/-- The default spec-level configuration. -/
def defaultConfigSpec : TokenizerConfigSpec := {}

/-- Symbolic names for the sub-patterns of the comprehensive pattern. -/
inductive PatPart where
  | url | email | mention | hashtag | cashtag | emoji | numeric | word | punct
  deriving DecidableEq, Repr

/-- The sub-pattern each part stands for. -/
def partRe : PatPart → Re
  | .url => urlRe
  | .email => emailRe
  | .mention => mentionRe
  | .hashtag => hashtagRe
  | .cashtag => cashtagRe
  | .emoji => emojiRe
  | .numeric => numericRe
  | .word => wordRe
  | .punct => punctuationRe

/-- The parts list built by `get_comprehensive_pattern` (patterns.py lines
191-223) once `extract_cashtags` exists: the enabled features' patterns
appended in the source's fixed order — URL, email, mention, hashtag,
cashtag, emoji, numeric, the always-present word pattern, punctuation. -/
def patternParts (cfg : TokenizerConfigSpec) : List PatPart :=
  (if cfg.include_urls then [.url] else []) ++
  (if cfg.include_emails then [.email] else []) ++
  (if cfg.extract_mentions then [.mention] else []) ++
  (if cfg.extract_hashtags then [.hashtag] else []) ++
  (if cfg.extract_cashtags then [.cashtag] else []) ++
  (if cfg.include_emoji then [.emoji] else []) ++
  (if cfg.include_numeric then [.numeric] else []) ++
  [.word] ++
  (if cfg.include_punctuation then [.punct] else [])

/-- The comprehensive pattern of the intended pipeline:
`"(?:" + "|".join(pattern_parts) + ")"` compiled with `IGNORECASE`
(patterns.py lines 226-231); compilation of these well-formed patterns
succeeds, so the `\S+` fallback (lines 232-241) is not taken. -/
def getComprehensivePatternSpec (cfg : TokenizerConfigSpec) : Re :=
  alternation ((patternParts cfg).map partRe)

/-- `_extract_tokens_ordered` in the intended pipeline. -/
def extractTokensOrderedSpec (cfg : TokenizerConfigSpec)
    (lang : LanguageFamily) (text : List Char) : List (List Char) :=
  if (pyStrip text).isEmpty then []
  else
    let text := applyExclusion cfg.toTokenizerConfig text
    if (pyStrip text).isEmpty then []
    else extractCore (getComprehensivePatternSpec cfg) lang text

/-- `BasicTokenizer.tokenize` in the intended pipeline. -/
def tokenizeSpec (cfg : TokenizerConfigSpec) (text : Option (List Char)) :
    List (List Char) :=
  match text with
  | none => []
  | some t =>
    if t.isEmpty then []
    else
      let processed := preprocessText cfg.toTokenizerConfig t
      if processed.isEmpty then []
      else
        postprocessTokens cfg.toTokenizerConfig
          (extractTokensOrderedSpec cfg .mixed processed)

/-- `tokenizeSpec` on `String`s. -/
def tokenizeSpecStr (cfg : TokenizerConfigSpec) (s : String) : List String :=
  (tokenizeSpec cfg (some s.toList)).map List.asString

/-! ## N-gram extraction (analyzers/ngrams/ngrams_base/main.py) -/

/-- `ngrams(tokens, min, max)` (main.py lines 181-187): for each start
index `i` in `range(len(tokens) - min + 1)`, the windows of every length
`n` in `range(min, max + 1)` that fit (`break` once `i + n > len`,
rendered as the fitting prefix of the `n` range). -/
def ngrams (tokens : List String) (minN maxN : Nat) : List (List String) :=
  (List.range (tokens.length + 1 - minN)).flatMap (fun i =>
    ((List.range (maxN + 1 - minN)).map (fun k => minN + k)).filterMap (fun n =>
      if i + n ≤ tokens.length then some ((tokens.drop i).take n) else none))

/-- `serialize_ngram` (main.py lines 190-192): tokens joined by a single
space. -/
def serialize_ngram (ngram : List String) : String :=
  String.intercalate " " ngram

/-- State threaded through `get_ngram_rows` (main.py lines 73-103): the
global serialized-ngram → id dictionary (as an association list in
insertion order, ids are assigned by counting) and the emitted
`(message_surrogate_id, ngram_id)` pairs in order. -/
structure NgramState where
  ngramsById : List (String × Nat) := []
  pairs : List (Nat × Nat) := []
  deriving DecidableEq, Repr

/-- The body of the per-message n-gram loop (main.py lines 81-99):
within-message dedup via `seen_ngrams_in_message`, id assignment by
dictionary size, pair emission. -/
def processMessageNgrams (msgId : Nat) (grams : List (List String))
    (st : NgramState) : NgramState :=
  (grams.foldl (fun (acc : List String × NgramState) ngram =>
      let seen := acc.1
      let st := acc.2
      let serialized := serialize_ngram ngram
      if seen.contains serialized then (seen, st)
      else
        let byId :=
          if (st.ngramsById.lookup serialized).isNone then
            st.ngramsById ++ [(serialized, st.ngramsById.length)]
          else st.ngramsById
        let ngramId := (byId.lookup serialized).getD 0
        (serialized :: seen,
         { ngramsById := byId, pairs := st.pairs ++ [(msgId, ngramId)] }))
    ([], st)).2

/-- `_extract_ngrams_from_messages` (main.py lines 50-107) with the
source's tokenizer: each message's text is tokenized by `tokenize_text`
(which raises, see `getComprehensivePattern`), its n-grams deduplicated
within the message and emitted as `(message_surrogate_id, ngram_id)`
pairs; ids are assigned first-seen across the whole corpus. -/
def extractNgramsFromMessages (cfg : TokenizerConfig) (minN maxN : Nat)
    (messages : List (Nat × String)) : Except PyErr NgramState :=
  messages.foldlM (fun st msg =>
    match tokenizeStr cfg msg.2 with
    | .error e => .error e
    | .ok tokens => .ok (processMessageNgrams msg.1 (ngrams tokens minN maxN) st))
    ({} : NgramState)

/-- `_extract_ngrams_from_messages` in the intended pipeline
(`tokenizeSpec` in place of the raising tokenizer). -/
def extractNgramsFromMessagesSpec (cfg : TokenizerConfigSpec) (minN maxN : Nat)
    (messages : List (Nat × String)) : NgramState :=
  messages.foldl (fun st msg =>
    processMessageNgrams msg.1 (ngrams (tokenizeSpecStr cfg msg.2) minN maxN) st)
    ({} : NgramState)

/-- The tokenizer configuration built by the n-gram analyzer's `main`
(main.py lines 137-144). -/
def ngramAnalyzerConfig : TokenizerConfig :=
  { case_handling := .lowercase
    normalize_unicode := true
    extract_hashtags := true
    extract_mentions := true
    include_urls := true
    min_token_length := 1 }

/-- The same configuration at the spec level (`extract_cashtags` keeps its
default). -/
def ngramAnalyzerConfigSpec : TokenizerConfigSpec :=
  { toTokenizerConfig := ngramAnalyzerConfig }

/-- Number of emitted pairs whose n-gram id is that of the serialized
n-gram `s` in the state's definition table. -/
def pairCountFor (st : NgramState) (s : String) : Nat :=
  match st.ngramsById.lookup s with
  | none => 0
  | some i => st.pairs.countP (fun pr => pr.2 == i)

/-! ## N-gram statistics (analyzers/ngrams/ngrams_stats/main.py) -/

/-- One row of the statistics table: n-gram id, `ngram_total_reps`,
`ngram_distinct_poster_count`. -/
structure NgramStatRow where
  ngramId : Nat
  totalReps : Nat
  distinctPosters : Nat
  deriving DecidableEq, Repr

/-- `_compute_ngram_statistics` (ngrams_stats/main.py lines 30-59): group
the `(message_surrogate_id, ngram_id)` pairs by n-gram id; per group count
the rows (`ngram_total_reps`) and the distinct authors of the messages
(`replace_strict` against the author-by-message mapping, then `n_unique`),
and keep only groups with more than one repetition.  The author mapping is
total here, matching `replace_strict`'s requirement that every message id
be present.  Group order is not part of any claim. -/
def computeNgramStatistics (pairs : List (Nat × Nat)) (author : Nat → String) :
    List NgramStatRow :=
  ((pairs.map (·.2)).dedup).filterMap (fun g =>
    let grp := pairs.filter (fun pr => pr.2 == g)
    let totalReps := grp.length
    let distinctPosters := ((grp.map (fun pr => author pr.1)).dedup).length
    if 1 < totalReps then some ⟨g, totalReps, distinctPosters⟩ else none)

/-! ## Concrete inputs used in the theorems -/

/-- An ASCII apostrophe as a string (U+0027). -/
def apostStr : String := String.singleton (Char.ofNat 39)

/-- First message of the within-message-dedup scenario. -/
def msgGo1 : String := "go go go now"

/-- Second message: `go go go it's very bad`. -/
def msgGo2 : String := "go go go it" ++ apostStr ++ "s very bad"

/-- Third message: `go go go it's very bad it's very bad`. -/
def msgGo3 : String := msgGo2 ++ " it" ++ apostStr ++ "s very bad"

/-- The three-message corpus of the dedup scenario, with surrogate ids. -/
def goMessages : List (Nat × String) := [(1, msgGo1), (2, msgGo2), (3, msgGo3)]

/-- The n-gram state the intended pipeline produces on that corpus with
`min_n = 3`, `max_n = 4`. -/
def goState : NgramState :=
  extractNgramsFromMessagesSpec ngramAnalyzerConfigSpec 3 4 goMessages

/-- The serialized 3-gram `it's very bad`. -/
def itsVeryBad : String := "it" ++ apostStr ++ "s very bad"

/-- Configuration with hashtag extraction disabled (otherwise default). -/
def cfgNoHashtags : TokenizerConfig := { extract_hashtags := false }

/-- Spec-level configuration with hashtag extraction disabled. -/
def cfgNoHashtagsSpec : TokenizerConfigSpec := { toTokenizerConfig := cfgNoHashtags }

/-- Configuration with URLs disabled (otherwise default). -/
def cfgNoUrls : TokenizerConfig := { include_urls := false }

/-- Spec-level configuration with URLs disabled. -/
def cfgNoUrlsSpec : TokenizerConfigSpec := { toTokenizerConfig := cfgNoUrls }

/-- Spec-level configuration with every optional token type enabled. -/
def allOnConfigSpec : TokenizerConfigSpec :=
  { include_punctuation := true
    include_numeric := true
    include_emoji := true
    extract_hashtags := true
    extract_mentions := true
    include_urls := true
    include_emails := true
    extract_cashtags := true }

/-- Spec-level configuration with every optional token type disabled. -/
def allOffConfigSpec : TokenizerConfigSpec :=
  { include_punctuation := false
    include_numeric := false
    include_emoji := false
    extract_hashtags := false
    extract_mentions := false
    include_urls := false
    include_emails := false
    extract_cashtags := false }

/-! ## Proof-structuring decompositions

`tokenize`/`tokenizeSpec` are re-expressed as "postprocess the raw tokens of
the earlier stages", which factors the final filtering out of the branch
structure; the early-return branches agree because postprocessing an empty
list yields an empty list. -/

/-- Everything `tokenizeSpec` does before `_postprocess_tokens`. -/
def rawTokensSpec (cfg : TokenizerConfigSpec) (text : Option (List Char)) :
    List (List Char) :=
  match text with
  | none => []
  | some t =>
    if t.isEmpty then []
    else
      let processed := preprocessText cfg.toTokenizerConfig t
      if processed.isEmpty then []
      else extractTokensOrderedSpec cfg .mixed processed

/-- Everything `tokenize` does before `_postprocess_tokens`. -/
def rawTokensReal (cfg : TokenizerConfig) (text : Option (List Char)) :
    Except PyErr (List (List Char)) :=
  match text with
  | none => .ok []
  | some t =>
    if t.isEmpty then .ok []
    else
      let processed := preprocessText cfg t
      if processed.isEmpty then .ok []
      else extractTokensOrdered cfg .mixed processed

/-! # Supporting lemmas -/

/-- Left-to-right postprocessing distributes over the stage decomposition. -/
theorem tokenizeSpec_eq (cfg : TokenizerConfigSpec) (text : Option (List Char)) :
    tokenizeSpec cfg text =
      postprocessTokens cfg.toTokenizerConfig (rawTokensSpec cfg text) := by
  cases text with
  | none => rfl
  | some t =>
    unfold tokenizeSpec rawTokensSpec
    by_cases h1 : t.isEmpty <;> simp only [h1, if_true, if_false]
    · rfl
    · by_cases h2 : (preprocessText cfg.toTokenizerConfig t).isEmpty <;>
        simp only [h2, if_true, if_false] <;> rfl

/-- Same decomposition for the fallible pipeline. -/
theorem tokenize_eq (cfg : TokenizerConfig) (text : Option (List Char)) :
    tokenize cfg text = (rawTokensReal cfg text).map (postprocessTokens cfg) := by
  cases text with
  | none => rfl
  | some t =>
    unfold tokenize rawTokensReal
    by_cases h1 : t.isEmpty <;> simp only [h1, if_true, if_false]
    · rfl
    · by_cases h2 : (preprocessText cfg t).isEmpty <;>
        simp only [h2, if_true, if_false]
      · rfl
      · cases h3 : extractTokensOrdered cfg .mixed (preprocessText cfg t) <;>
          simp [h3, Except.map]

/-- No stage before postprocessing reads `min_token_length` (spec pipeline):
every configuration access in those stages projects an unchanged field. -/
theorem rawTokensSpec_min_irrel (cfg : TokenizerConfig) (cash : Bool) (m : Nat)
    (text : Option (List Char)) :
    rawTokensSpec ⟨{ cfg with min_token_length := m }, cash⟩ text =
      rawTokensSpec ⟨cfg, cash⟩ text := rfl

/-- No stage before postprocessing reads `min_token_length` (fallible
pipeline). -/
theorem rawTokensReal_min_irrel (cfg : TokenizerConfig) (m : Nat)
    (text : Option (List Char)) :
    rawTokensReal { cfg with min_token_length := m } text =
      rawTokensReal cfg text := rfl

/-- If `f` succeeds only where `g` succeeds (with the same value), then
filtering by `f` keeps at most as many elements as filtering by `g`. -/
theorem length_filterMap_mono {α β : Type} (f g : α → Option β)
    (h : ∀ a b, f a = some b → g a = some b) (l : List α) :
    (l.filterMap f).length ≤ (l.filterMap g).length := by
  induction l with
  | nil => simp
  | cons a l ih =>
    rw [List.filterMap_cons, List.filterMap_cons]
    cases hfa : f a with
    | none =>
      cases hga : g a with
      | none => exact ih
      | some b => simpa using Nat.le_trans ih (Nat.le_succ _)
    | some b => rw [h a b hfa]; simpa using ih

/-- A token surviving the postprocess filter with the larger minimum length
survives with the smaller one, unchanged. -/
theorem postProcessOne_min_mono (cfg : TokenizerConfig) (m1 m2 : Nat) (hm : m1 ≤ m2)
    (tok x : List Char)
    (hx : postProcessOne { cfg with min_token_length := m2 } tok = some x) :
    postProcessOne { cfg with min_token_length := m1 } tok = some x := by
  unfold postProcessOne at hx ⊢
  dsimp only at hx ⊢
  split_ifs at hx ⊢ <;> first | omega | exact hx

/-- Lower-casing fixes whitespace. -/
theorem pyLower_space (c : Char) (h : isPySpace c = true) : pyLower c = c := by
  unfold pyLower
  have hng : ¬ (65 ≤ c.toNat && c.toNat ≤ 90) = true := by
    simp only [isPySpace] at h
    simp at h ⊢
    omega
  simp [hng]

/-- Upper-casing fixes whitespace. -/
theorem pyUpper_space (c : Char) (h : isPySpace c = true) : pyUpper c = c := by
  unfold pyUpper
  have hng : ¬ (97 ≤ c.toNat && c.toNat ≤ 122) = true := by
    simp only [isPySpace] at h
    simp at h ⊢
    omega
  simp [hng]

/-- Stripping an all-whitespace string leaves nothing. -/
theorem pyStrip_eq_nil (s : List Char) (h : ∀ c ∈ s, isPySpace c = true) :
    pyStrip s = [] := by
  unfold pyStrip
  have h1 : s.dropWhile isPySpace = [] := by
    induction s with
    | nil => rfl
    | cons c cs ih =>
      rw [List.dropWhile_cons]
      simp [h c (by simp), ih (fun d hd => h d (by simp [hd]))]
  simp [h1]

/-- Preprocessing maps whitespace-only text to whitespace-only text for
every configuration. -/
theorem preprocess_space (cfg : TokenizerConfig) (s : List Char)
    (h : ∀ c ∈ s, isPySpace c = true) :
    ∀ c ∈ preprocessText cfg s, isPySpace c = true := by
  intro c hc
  unfold preprocessText nfkc at hc
  by_cases he : s.isEmpty
  · simp only [he, if_true] at hc
    exact h c hc
  · simp only [he, Bool.false_eq_true, if_false, ite_self] at hc
    cases hch : cfg.case_handling <;> simp only [hch, ite_self] at hc <;>
      first
      | exact h c hc
      | (rw [List.mem_map] at hc
         obtain ⟨d, hd, hdc⟩ := hc
         first
         | (rw [← hdc, pyLower_space d (h d hd)]; exact h d hd)
         | (rw [← hdc, pyUpper_space d (h d hd)]; exact h d hd))

/-- `tokenize` on whitespace-only input returns `ok []` without reaching the
comprehensive-pattern request. -/
theorem tokenize_all_space (cfg : TokenizerConfig) (s : List Char)
    (h : ∀ c ∈ s, isPySpace c = true) :
    tokenize cfg (some s) = .ok [] := by
  cases s with
  | nil => rfl
  | cons c cs =>
    unfold tokenize
    simp only [List.isEmpty_cons, if_false, Bool.false_eq_true]
    have hsp := preprocess_space cfg (c :: cs) h
    by_cases h2 : (preprocessText cfg (c :: cs)).isEmpty
    · simp [h2]
    · simp only [h2, if_false, Bool.false_eq_true]
      have hext : extractTokensOrdered cfg .mixed (preprocessText cfg (c :: cs)) =
          .ok [] := by
        unfold extractTokensOrdered
        rw [pyStrip_eq_nil _ hsp]
        simp
      rw [hext]
      rfl

/-! # Claim theorems -/

/-- Claim C1 (code bug): the claim says `tokenize` never raises for any
`TokenizerConfig` and any text.  In fact every call whose text is still
non-blank after the exclusion step raises `AttributeError`, because
`get_comprehensive_pattern` reads the `extract_cashtags` attribute that
`TokenizerConfig` does not define (patterns.py line 208 vs core/types.py
lines 47-100); the compile-failure fallback does not cover this.  This
theorem evaluates the pipeline at `"hello"` with the default configuration
and at a plain two-word text with a custom configuration. -/
theorem tokenize_raises_attribute_error :
    tokenizeStr defaultConfig "hello" =
      .error (.attributeError "extract_cashtags") ∧
    tokenizeStr { include_urls := false, include_emails := false,
                  case_handling := .preserve } "plain words" =
      .error (.attributeError "extract_cashtags") :=
  ⟨rfl, rfl⟩

/-- Claim C2 (counterexample): the claim asserts that an input containing
`iPhone用户` yields it as a single output token.  On the code as written
the call raises (`extract_cashtags`); and even with that slip repaired the
word pattern already ends the match span at the Latin/CJK script boundary,
so `iPhone用户` arrives at the mixed-script step as two separate spans and
the output is `["iphone", "用", "户"]` — not a single token. -/
theorem mixed_script_example_counterexample :
    tokenizeStr defaultConfig "iPhone用户" =
      .error (.attributeError "extract_cashtags") ∧
    tokenizeSpecStr defaultConfigSpec "iPhone用户" = ["iphone", "用", "户"] :=
  ⟨rfl, rfl⟩

/-- Claim C2 (amended): for every *single match span* that mixes ASCII
Latin letters with character-level-script characters and does not start
with `@`, `#` or `$`, the mixed-script step keeps the span intact; the
preservation does not apply to social-entity spans (`@ab用` splits); and it
is observable end-to-end only for spans the comprehensive pattern keeps
whole, such as URLs (`www.a用户`) — plain `iPhone用户` is split into
`iphone`/`用`/`户` as shown by the counterexample. -/
theorem mixed_span_preservation :
    (∀ t : List Char, t.any (fun c => c.toNat ≤ 127 && isAsciiAlpha c) = true →
      containsCharLevel t = true → startsWithSocial t = false →
      processMixedScriptToken t = [t]) ∧
    processMixedScriptToken "@ab用".toList = ["@ab".toList, "用".toList] ∧
    tokenizeSpecStr defaultConfigSpec "visit www.a用户" = ["visit", "www.a用户"] := by
  refine ⟨?_, rfl, rfl⟩
  intro t h1 h2 h3
  unfold processMixedScriptToken
  simp only [containsCharLevel] at h2
  simp [containsCharLevel, h1, h2, h3]

/-- Witness for the amended C2 theorem at the concrete span `www.a用户`. -/
theorem mixed_span_preservation_witness :
    processMixedScriptToken "www.a用户".toList = ["www.a用户".toList] :=
  mixed_span_preservation.1 _ (by decide) (by decide) (by decide)

/-- Claim C3 (code bug): with `extract_hashtags := false` the claim expects
`tokenize "#hashtag" = ["hashtag"]`, but the code raises before the
extraction pass (`extract_cashtags`); with `include_urls := false` the URL
is blanked out by the exclusion pass *before* the raising call, so
`tokenize "https://x.com"` really does return `[]` with no surviving
fragment.  The intended pipeline (missing field repaired) produces exactly
the claimed `["hashtag"]` and `[]`. -/
theorem entity_toggling_behavior :
    tokenizeStr cfgNoHashtags "#hashtag" =
      .error (.attributeError "extract_cashtags") ∧
    tokenizeStr cfgNoUrls "https://x.com" = .ok [] ∧
    tokenizeSpecStr cfgNoHashtagsSpec "#hashtag" = ["hashtag"] ∧
    tokenizeSpecStr cfgNoUrlsSpec "https://x.com" = [] :=
  ⟨rfl, rfl, rfl, rfl⟩

/-- Claim C4 (code bug): with the default configuration the claim expects
`tokenize "你好世界" = ["你","好","世","界"]` and two whole-word tokens for
`안녕하세요 세계`; the code raises instead (`extract_cashtags`).  The
intended pipeline produces exactly the claimed outputs; Hangul inside a
span mixed with Latin letters (`@abc안녕`, a single mention span) stays
whole; and Hangul can never be split at character level because the
syllable block U+AC00-U+D7AF is outside `_CHAR_LEVEL_PATTERN`, and spans
without character-level characters pass through the mixed-script step
intact. -/
theorem script_segmentation_behavior :
    tokenizeStr defaultConfig "你好世界" =
      .error (.attributeError "extract_cashtags") ∧
    tokenizeSpecStr defaultConfigSpec "你好世界" = ["你", "好", "世", "界"] ∧
    tokenizeSpecStr defaultConfigSpec "안녕하세요 세계" = ["안녕하세요", "세계"] ∧
    tokenizeSpecStr defaultConfigSpec "@abc안녕" = ["@abc안녕"] ∧
    (∀ c : Char, 0xAC00 ≤ c.toNat → c.toNat ≤ 0xD7AF →
      isCharLevelChar c = false) ∧
    (∀ t : List Char, containsCharLevel t = false →
      processMixedScriptToken t = [t]) := by
  refine ⟨rfl, rfl, rfl, rfl, ?_, ?_⟩
  · intro c hlo hhi
    unfold isCharLevelChar
    simp
    omega
  · intro t h
    unfold processMixedScriptToken
    simp [h]

/-- Witness for C4's universally quantified conjuncts: the first Hangul
syllable is not character-level, and a Latin+Hangul token passes through
the mixed-script step unsplit. -/
theorem script_segmentation_behavior_witness :
    isCharLevelChar (Char.ofNat 0xAC00) = false ∧
    processMixedScriptToken "ab안".toList = ["ab안".toList] :=
  ⟨script_segmentation_behavior.2.2.2.2.1 _ (by decide) (by decide),
   script_segmentation_behavior.2.2.2.2.2 _ (by decide)⟩

/-- Claim C5 (code bug): the claim describes the comprehensive pattern as
the ordered alternation of the enabled features' sub-patterns, cached per
configuration.  The real builder raises `AttributeError` for *every*
configuration at the cashtag step, before the list is finished, so no
pattern is ever produced or cached.  The parts list the source would build
once the field exists is exactly the claimed fixed priority order: all
features on gives URL, email, mention, hashtag, cashtag, emoji, numeric,
word, punctuation; the default configuration omits cashtag, emoji and
punctuation; with everything off only the always-present word pattern
remains. -/
theorem comprehensive_pattern_assembly :
    (∀ cfg : TokenizerConfig, getComprehensivePattern cfg =
      .error (.attributeError "extract_cashtags")) ∧
    patternParts allOnConfigSpec =
      [.url, .email, .mention, .hashtag, .cashtag, .emoji, .numeric, .word,
       .punct] ∧
    patternParts defaultConfigSpec =
      [.url, .email, .mention, .hashtag, .numeric, .word] ∧
    patternParts allOffConfigSpec = [.word] :=
  ⟨fun _ => rfl, rfl, rfl, rfl⟩

/-- Witness instantiating C5's universally quantified conjunct at a
concrete configuration. -/
theorem comprehensive_pattern_assembly_witness :
    getComprehensivePattern cfgNoUrls =
      .error (.attributeError "extract_cashtags") :=
  comprehensive_pattern_assembly.1 cfgNoUrls

/-- Claim C6 (code bug): the within-message-dedup scenario.  The real
extraction raises at the first message's `tokenize_text` call
(`extract_cashtags`).  In the intended pipeline the scenario behaves
exactly as claimed: `"go go go"` (id 0) is emitted once per message — 3
pairs in total, one per message — and `"it's very bad"` (id 8) once per
message in which it occurs — 2 pairs, messages 2 and 3 only, despite the
repetition inside message 3. -/
theorem ngram_dedup_behavior :
    extractNgramsFromMessages ngramAnalyzerConfig 3 4 goMessages =
      .error (.attributeError "extract_cashtags") ∧
    goState.ngramsById.lookup "go go go" = some 0 ∧
    goState.ngramsById.lookup itsVeryBad = some 8 ∧
    pairCountFor goState "go go go" = 3 ∧
    pairCountFor goState itsVeryBad = 2 ∧
    goState.pairs.countP (fun pr => pr == (1, 0)) = 1 ∧
    goState.pairs.countP (fun pr => pr == (2, 0)) = 1 ∧
    goState.pairs.countP (fun pr => pr == (3, 0)) = 1 ∧
    goState.pairs.countP (fun pr => pr == (1, 8)) = 0 ∧
    goState.pairs.countP (fun pr => pr == (2, 8)) = 1 ∧
    goState.pairs.countP (fun pr => pr == (3, 8)) = 1 :=
  ⟨rfl, rfl, rfl, rfl, rfl, rfl, rfl, rfl, rfl, rfl, rfl⟩

/-- Claim C7 (confirmed): length filtering is monotonic.  Extraction is
unaffected by `min_token_length` (first conjunct, an equality of the raw
pipelines); postprocessing keeps at most as many tokens under a larger
minimum (second conjunct); hence the intended pipeline's output count never
increases when `min_token_length` grows (third conjunct, which at
`m1 = 0, m2 = 1` is exactly the claim's 0-versus-1 comparison), and the
same holds for any outputs the fallible pipeline produces (fourth
conjunct). -/
theorem min_token_length_monotonic (cfg : TokenizerConfig) (cash : Bool)
    (m1 m2 : Nat) (hm : m1 ≤ m2) :
    (∀ lang text, extractTokensOrdered { cfg with min_token_length := m2 } lang text =
        extractTokensOrdered { cfg with min_token_length := m1 } lang text) ∧
    (∀ toks, (postprocessTokens { cfg with min_token_length := m2 } toks).length ≤
        (postprocessTokens { cfg with min_token_length := m1 } toks).length) ∧
    (∀ text, (tokenizeSpec ⟨{ cfg with min_token_length := m2 }, cash⟩ text).length ≤
        (tokenizeSpec ⟨{ cfg with min_token_length := m1 }, cash⟩ text).length) ∧
    (∀ text l1 l2, tokenize { cfg with min_token_length := m1 } text = .ok l1 →
        tokenize { cfg with min_token_length := m2 } text = .ok l2 →
        l2.length ≤ l1.length) := by
  have hpost : ∀ toks,
      (postprocessTokens { cfg with min_token_length := m2 } toks).length ≤
      (postprocessTokens { cfg with min_token_length := m1 } toks).length :=
    fun toks => length_filterMap_mono _ _
      (postProcessOne_min_mono cfg m1 m2 hm) toks
  refine ⟨fun lang text => rfl, hpost, ?_, ?_⟩
  · intro text
    rw [tokenizeSpec_eq, tokenizeSpec_eq,
      rawTokensSpec_min_irrel cfg cash m2 text, rawTokensSpec_min_irrel cfg cash m1 text]
    exact hpost _
  · intro text l1 l2 h1 h2
    rw [tokenize_eq, rawTokensReal_min_irrel cfg m1 text] at h1
    rw [tokenize_eq, rawTokensReal_min_irrel cfg m2 text] at h2
    cases hraw : rawTokensReal cfg text with
    | error e => rw [hraw] at h1; exact absurd h1 (by simp [Except.map])
    | ok toks =>
      rw [hraw] at h1 h2
      simp only [Except.map, Except.ok.injEq] at h1 h2
      rw [← h1, ← h2]
      exact hpost toks

/-- Witness for C7 at `min_token_length` 1 versus 2 on `"hello ab c"`:
three tokens survive the smaller minimum, two the larger, and the theorem's
inequality holds between them. -/
theorem min_token_length_monotonic_witness :
    (tokenizeSpec ⟨{ defaultConfig with min_token_length := 2 }, false⟩
        (some "hello ab c".toList)).length = 2 ∧
    (tokenizeSpec ⟨{ defaultConfig with min_token_length := 1 }, false⟩
        (some "hello ab c".toList)).length = 3 ∧
    (tokenizeSpec ⟨{ defaultConfig with min_token_length := 2 }, false⟩
        (some "hello ab c".toList)).length ≤
      (tokenizeSpec ⟨{ defaultConfig with min_token_length := 1 }, false⟩
        (some "hello ab c".toList)).length :=
  ⟨rfl, rfl,
   (min_token_length_monotonic defaultConfig false 1 2 (by decide)).2.2.1 _⟩

/-- Claim C8 (code bug): the zero-match fallback.  The claim expects
extraction to return the trimmed whole input when find-all yields nothing
on a non-blank text, but the real extraction raises before find-all can
run (`extract_cashtags`), shown here on `"§§"`.  The fallback logic itself
behaves as claimed (second conjunct), and in the intended pipeline `"§§"`
— which the comprehensive pattern does not match — comes back as the
single trimmed token, as does pure punctuation with punctuation disabled. -/
theorem zero_match_fallback_behavior :
    tokenizeStr defaultConfig "§§" =
      .error (.attributeError "extract_cashtags") ∧
    (∀ comp lang text, Re.findall comp text = [] →
      (pyStrip text).isEmpty = false →
      extractCore comp lang text = [pyStrip text]) ∧
    Re.findall (getComprehensivePatternSpec defaultConfigSpec) "§§".toList = [] ∧
    tokenizeSpecStr defaultConfigSpec "§§" = ["§§"] ∧
    tokenizeSpecStr defaultConfigSpec "..." = ["..."] := by
  refine ⟨rfl, ?_, rfl, rfl, rfl⟩
  intro comp lang text h1 h2
  unfold extractCore
  rw [h1]
  simp [h2]

/-- Witness for C8's universally quantified conjunct: the intended
comprehensive pattern finds nothing in `"§§"`, so extraction falls back to
the stripped whole input. -/
theorem zero_match_fallback_behavior_witness :
    extractCore (getComprehensivePatternSpec defaultConfigSpec) .mixed
      "§§".toList = ["§§".toList] :=
  zero_match_fallback_behavior.2.1 _ _ _
    zero_match_fallback_behavior.2.2.1 (by decide)

/-- Claim C9 (confirmed): every row of the n-gram statistics table has a
total repetition count of at least 2 (singletons are filtered), the total
is exactly the number of `(message, ngram)` pairs carrying that n-gram id,
and the distinct-poster count never exceeds the total. -/
theorem ngram_stats_rows (pairs : List (Nat × Nat)) (author : Nat → String)
    (row : NgramStatRow) (h : row ∈ computeNgramStatistics pairs author) :
    2 ≤ row.totalReps ∧
      row.totalReps = pairs.countP (fun pr => pr.2 == row.ngramId) ∧
      row.distinctPosters ≤ row.totalReps := by
  unfold computeNgramStatistics at h
  rw [List.mem_filterMap] at h
  obtain ⟨g, hg, hrow⟩ := h
  simp only at hrow
  split_ifs at hrow with htot
  · cases hrow.symm
    refine ⟨by simpa using htot, ?_, ?_⟩
    · simp [List.countP_eq_length_filter]
    · calc ((pairs.filter (fun pr => pr.2 == g)).map (fun pr => author pr.1)).dedup.length
          ≤ ((pairs.filter (fun pr => pr.2 == g)).map (fun pr => author pr.1)).length :=
            (List.dedup_sublist _).length_le
        _ = (pairs.filter (fun pr => pr.2 == g)).length := List.length_map _ _

/-- Witness for C9 on a concrete pair table: n-gram 0 occurs in two
messages by one author, and its row satisfies all three bounds. -/
theorem ngram_stats_rows_witness :
    2 ≤ (⟨0, 2, 1⟩ : NgramStatRow).totalReps ∧
      (⟨0, 2, 1⟩ : NgramStatRow).totalReps =
        [(1, 0), (2, 0), (3, 1)].countP
          (fun pr => pr.2 == (⟨0, 2, 1⟩ : NgramStatRow).ngramId) ∧
      (⟨0, 2, 1⟩ : NgramStatRow).distinctPosters ≤
        (⟨0, 2, 1⟩ : NgramStatRow).totalReps :=
  ngram_stats_rows [(1, 0), (2, 0), (3, 1)] (fun _ => "a") ⟨0, 2, 1⟩ (by decide)

/-- Claim C10 (confirmed): `tokenize` of `None`, of the empty string and of
any whitespace-only string returns the empty list without raising — the
blank checks run before the raising comprehensive-pattern request, so this
holds for every configuration. -/
theorem empty_input_returns_empty (cfg : TokenizerConfig) (s : List Char)
    (h : ∀ c ∈ s, isPySpace c = true) :
    tokenize cfg none = .ok [] ∧
    tokenize cfg (some []) = .ok [] ∧
    tokenize cfg (some s) = .ok [] :=
  ⟨rfl, rfl, tokenize_all_space cfg s h⟩

/-- Witness for C10 at the default configuration and a concrete
whitespace-only string. -/
theorem empty_input_returns_empty_witness :
    tokenize defaultConfig (some " \t\n ".toList) = .ok [] :=
  (empty_input_returns_empty defaultConfig _ (by decide)).2.2

end MangoTango

